import Mathlib

/-!
Verification of the QuakeWatch spatial clustering engine (`src/utils/mapUtils`,
given as `src/unnamed/part_000`): `getMagnitudeColor`, the feature validation
filter, the Supercluster map/reduce aggregation, `createClusterMarkers`, and the
marker sizing of `createMarkerElement`.

Embedding conventions:
- JavaScript numbers are modelled as exact rationals (`ℚ`).
- Possibly-absent (`null`/`undefined`) values are `Option`s; JS truthiness on a
  string is "non-empty", on a number "non-zero", on `null`/`undefined` "false".
- The third-party Supercluster index is not part of the repository's sources;
  it is modelled from the spec (doc comments marked "Modelled from the spec").
- The fallible part of `createClusterMarkers` (the body of its `try` block) is
  an `Except`; the exported function catches every error and returns `[]`.
-/

/-- GeoJSON geometry object as the validation filter sees it: `geometry.type`
and `geometry.coordinates` may each be absent; `coordinates = none` models a
value that is not an array (`Array.isArray` fails). -/
structure Geometry where
  type : Option String
  coordinates : Option (List ℚ)
deriving DecidableEq

/-- GeoJSON `properties` bag with the fields the code reads; every field may be
`null`/`undefined`. -/
structure Props where
  mag : Option ℚ
  place : Option String
  time : Option ℚ
  depth : Option ℚ
  id : Option String
  url : Option String
deriving DecidableEq

/-- A raw input feature: every part the code touches may be absent. A `none` in
the input list models a `null`/non-object entry. -/
structure Feature where
  type : Option String
  geometry : Option Geometry
  properties : Option Props
  id : Option String
deriving DecidableEq

/-- A Mapbox-style bounds object (`getWest()`/`getSouth()`/`getEast()`/
`getNorth()`); the caller may pass `null`/`undefined` bounds, modelled as
`Option Bounds` at the call site. -/
structure Bounds where
  west : ℚ
  south : ℚ
  east : ℚ
  north : ℚ
deriving DecidableEq

/-- `getMagnitudeColor` (part_000 lines 4-10): magnitude-to-color banding with
inclusive lower bounds. -/
def getMagnitudeColor (magnitude : ℚ) : String :=
  if magnitude ≥ 7 then "#d32f2f"
  else if magnitude ≥ 6 then "#f57c00"
  else if magnitude ≥ 5 then "#ffa000"
  else if magnitude ≥ 4 then "#fbc02d"
  else "#7cb342"

/-- Severity rank of a color band, for stating monotonicity: light green is the
calmest (0), strong red the most severe (4). -/
def colorLevel (c : String) : ℕ :=
  if c = "#d32f2f" then 4
  else if c = "#f57c00" then 3
  else if c = "#ffa000" then 2
  else if c = "#fbc02d" then 1
  else 0

/-- `formatDate` (part_000 lines 13-27). The locale rendering done by
`Date.toLocaleString` is host-environment behaviour; it is modelled as a total
injective encoding of the timestamp, with the `null`/`undefined` timestamp case
kept distinct. No claim inspects the string's shape. -/
def formatDate (timestamp : Option ℚ) : String :=
  match timestamp with
  | some q => "date:" ++ toString q.num ++ "/" ++ toString q.den
  | none => "Date unavailable"

/-- The validation filter of `createClusterMarkers` (part_000 lines 37-46):
`feature && feature.type === 'Feature' && feature.geometry?.type === 'Point' &&
Array.isArray(feature.geometry.coordinates) &&
feature.geometry.coordinates.length === 3 && feature.properties?.mag != null &&
feature.properties?.place && feature.properties?.time`. -/
def isValidFeature : Option Feature → Bool
  | none => false
  | some f =>
    (f.type == some "Feature") &&
    ((f.geometry.bind Geometry.type) == some "Point") &&
    (match f.geometry with
     | some g => g.coordinates.isSome
     | none => false) &&
    (match f.geometry.bind Geometry.coordinates with
     | some cs => cs.length == 3
     | none => false) &&
    ((f.properties.bind Props.mag).isSome) &&
    (match f.properties.bind Props.place with
     | some s => s ≠ ""
     | none => false) &&
    (match f.properties.bind Props.time with
     | some t => t ≠ 0
     | none => false)

/-- The spec's validity invariant, as worded in §3: "a feature is 'valid' only
if it has a two-element-or-more coordinate pair, a non-null magnitude, a
non-empty place string, and a non-null time". Stated from the spec's words for
comparison against the code's filter. -/
def specValidFeature : Option Feature → Bool
  | none => false
  | some f =>
    (match f.geometry.bind Geometry.coordinates with
     | some cs => 2 ≤ cs.length
     | none => false) &&
    ((f.properties.bind Props.mag).isSome) &&
    (match f.properties.bind Props.place with
     | some s => s ≠ ""
     | none => false) &&
    ((f.properties.bind Props.time).isSome)

/-- The condition the code's filter actually enforces, spelled out as a
proposition: GeoJSON `Feature` type, `Point` geometry, an exactly-three-element
coordinate array, a non-null magnitude, a truthy (non-empty) place string, and
a truthy (non-null and non-zero) time. -/
def CodeValidFeature (of : Option Feature) : Prop :=
  ∃ f g cs p m pl t,
    of = some f ∧
    f.type = some "Feature" ∧
    f.geometry = some g ∧
    g.type = some "Point" ∧
    g.coordinates = some cs ∧
    cs.length = 3 ∧
    f.properties = some p ∧
    p.mag = some m ∧
    p.place = some pl ∧
    pl ≠ "" ∧
    p.time = some t ∧
    t ≠ 0

/-- Longitude/latitude/depth array of a feature, as the code reads
`feature.geometry.coordinates` (absent parts give the empty array; validated
features always have a three-element array). -/
def featCoords (f : Feature) : List ℚ :=
  (f.geometry.bind Geometry.coordinates).getD []

/-- Longitude component (`coordinates[0]`). -/
def featLon (f : Feature) : ℚ := (featCoords f).getD 0 0

/-- Latitude component (`coordinates[1]`). -/
def featLat (f : Feature) : ℚ := (featCoords f).getD 1 0

/-- JS `a || b` on numbers: a zero (falsy) or absent left operand yields the
right operand. -/
def jsOrQ (a b : ℚ) : ℚ := if a = 0 then b else a

/-- JS `a || b` on optional numbers, used for `props.depth || 0`. -/
def jsOrOptQ (a : Option ℚ) (b : ℚ) : ℚ :=
  match a with
  | some x => if x = 0 then b else x
  | none => b

/-- JS `a || b` on optional strings, used for
`cluster.properties.id || cluster.id`: an empty (falsy) or absent left operand
yields the right operand. -/
def jsOrOptStr (a b : Option String) : Option String :=
  match a with
  | some s => if s = "" then b else some s
  | none => b

/-- The `map` option of the Supercluster instance (part_000 lines 58-64):
`props => ({ mag: props.mag, time: props.time, place: props.place,
depth: props.depth || 0, id: props.id })`. Validated features always carry
`mag`/`place`/`time`, so the `getD` defaults are never exercised on them. -/
structure MappedProps where
  mag : ℚ
  time : ℚ
  place : String
  depth : ℚ
  id : Option String
deriving DecidableEq

/-- Apply the `map` option to a feature's properties. -/
def mapProps (f : Feature) : MappedProps :=
  { mag := (f.properties.bind Props.mag).getD 0,
    time := (f.properties.bind Props.time).getD 0,
    place := (f.properties.bind Props.place).getD "",
    depth := jsOrOptQ (f.properties.bind Props.depth) 0,
    id := f.properties.bind Props.id }

/-- Modelled from the spec: the accumulator a cluster aggregate carries while
member points are merged in. The `mag`/`depth` fields are written by the
repository's `reduce` callback (part_000 lines 65-68); the `count` field is
the aggregate's current member count, the "existing aggregate with current
count `c`" of spec §4 (maintained by the Supercluster library, which is not
part of the repository's sources). -/
structure AggAcc where
  mag : ℚ
  depth : ℚ
  count : ℕ
deriving DecidableEq

/-- The `reduce` option of the Supercluster instance (part_000 lines 65-68):
`acc.mag = (acc.mag * acc.count + props.mag) / (acc.count + 1)` and likewise
for `depth`, with the count advancing by one per merged point. -/
def reduceAcc (acc : AggAcc) (p : MappedProps) : AggAcc :=
  { mag := (acc.mag * acc.count + p.mag) / (acc.count + 1),
    depth := (acc.depth * acc.count + p.depth) / (acc.count + 1),
    count := acc.count + 1 }

/-- Modelled from the spec: the running aggregate of a cluster is obtained by
merging its member points one at a time into an initially empty aggregate via
the `reduce` rule (spec §4, "applied as points merge bottom-up into a
cluster"). The first merge turns the empty aggregate into the point itself. -/
def clusterAcc (ps : List MappedProps) : AggAcc :=
  ps.foldl reduceAcc ⟨0, 0, 0⟩

/-- A node returned by the index query: either an unclustered original feature
or a cluster with a representative coordinate and its member features. -/
inductive Node where
  | leaf (f : Feature)
  | cluster (coordinates : List ℚ) (members : List Feature)
deriving DecidableEq

/-- Modelled from the spec: the grid cell a feature falls into at a given
integer zoom. The spec fixes only the tunables (radius 60 screen-pixel
equivalents, shrinking as zoom grows); the concrete cell geometry is a model
choice — points sharing a cell merge into one cluster. -/
def cellKey (z : ℕ) (f : Feature) : ℤ × ℤ :=
  (⌊featLon f * 2 ^ z / 60⌋, ⌊featLat f * 2 ^ z / 60⌋)

/-- Append a feature to the group holding key `k`, keeping first-seen group
order and insertion order inside each group. -/
def insertByKey (k : ℤ × ℤ) (f : Feature) :
    List ((ℤ × ℤ) × List Feature) → List ((ℤ × ℤ) × List Feature)
  | [] => [(k, [f])]
  | (k', fs) :: rest =>
    if k = k' then (k', fs ++ [f]) :: rest
    else (k', fs) :: insertByKey k f rest

/-- Modelled from the spec: group the loaded features by grid cell at the given
integer zoom. -/
def groupFeatures (z : ℕ) (fs : List Feature) : List ((ℤ × ℤ) × List Feature) :=
  fs.foldl (fun acc f => insertByKey (cellKey z f) f acc) []

/-- Modelled from the spec: a cluster's representative coordinate is the
centroid of its members' longitudes/latitudes (spec §3, "representative
(usually centroid) longitude/latitude"). -/
def centroid (fs : List Feature) : List ℚ :=
  [(fs.map featLon).sum / fs.length, (fs.map featLat).sum / fs.length]

/-- Modelled from the spec: a grid group of a single feature stays an
unclustered point; a group of two or more features becomes a cluster (spec §3:
a cluster aggregates "≥2 nearby Point Features"). -/
def groupToNode : List Feature → Option Node
  | [] => none
  | [f] => some (Node.leaf f)
  | f :: g :: rest => some (Node.cluster (centroid (f :: g :: rest)) (f :: g :: rest))

/-- Coordinates of a node, for the bounding-box query. -/
def nodeCoords : Node → List ℚ
  | .leaf f => featCoords f
  | .cluster cs _ => cs

/-- Modelled from the spec: a node is visible when its coordinate lies inside
the query bounding box `[west, south, east, north]`. -/
def inBBox (b : Bounds) (cs : List ℚ) : Bool :=
  decide (b.west ≤ cs.getD 0 0) && decide (cs.getD 0 0 ≤ b.east) &&
  decide (b.south ≤ cs.getD 1 0) && decide (cs.getD 1 0 ≤ b.north)

/-- Modelled from the spec: `index.getClusters(bbox, zoom)`. Above the
clustering max zoom of 16 every point renders individually (spec §4); otherwise
the zoom is clamped below by the min zoom 0, the features are grouped by cell,
and each group becomes a leaf or cluster node. Only nodes inside the bounding
box are returned. -/
def getClusters (fs : List Feature) (b : Bounds) (zoom : ℤ) : List Node :=
  let nodes :=
    if zoom > 16 then fs.map Node.leaf
    else (groupFeatures (Int.toNat (max 0 zoom)) fs).filterMap fun g => groupToNode g.2
  nodes.filter fun n => inBBox b (nodeCoords n)

/-- Modelled from the spec: `index.getLeaves(cluster_id, 10)` returns up to the
cap of 10 representative member leaves, in insertion order (the spec leaves the
tie-break open; insertion order is the model's stable choice, §9). The leaves
are the original input features. -/
def getLeaves (members : List Feature) (cap : ℕ) : List Feature :=
  members.take cap

/-- The per-event record every descriptor carries (part_000 lines 89-98 and
107-115). -/
structure Earthquake where
  id : Option String
  magnitude : Option ℚ
  location : Option String
  coordinates : List ℚ
  depth : Option ℚ
  time : String
  timestamp : Option ℚ
  url : Option String
deriving DecidableEq

/-- A marker descriptor, the tagged output union of `createClusterMarkers`:
`{ type: 'single', earthquake, coordinates, magnitude, depth }` or
`{ type: 'cluster', coordinates, count, avgMagnitude, avgDepth, points }`. -/
inductive Marker where
  | single (earthquake : Earthquake) (coordinates : List ℚ) (magnitude : Option ℚ)
      (depth : Option ℚ)
  | cluster (coordinates : List ℚ) (count : ℕ) (avgMagnitude : ℚ) (avgDepth : ℚ)
      (points : List Earthquake)
deriving DecidableEq

/-- The single-earthquake branch (part_000 lines 87-102): the node is the
original feature, and the descriptor copies its attributes, with
`id: cluster.properties.id || cluster.id` and `depth: coordinates[2]`. -/
def singleMarker (f : Feature) : Marker :=
  .single
    { id := jsOrOptStr (f.properties.bind Props.id) f.id,
      magnitude := f.properties.bind Props.mag,
      location := f.properties.bind Props.place,
      coordinates := featCoords f,
      depth := (featCoords f)[2]?,
      time := formatDate (f.properties.bind Props.time),
      timestamp := f.properties.bind Props.time,
      url := f.properties.bind Props.url }
    (featCoords f)
    (f.properties.bind Props.mag)
    ((featCoords f)[2]?)

/-- One retained sample point of a cluster (part_000 lines 107-116), built from
a leaf returned by `getLeaves`; note `id: leaf.properties.id` here, without the
`|| leaf.id` fallback of the single branch. -/
def leafToPoint (f : Feature) : Earthquake :=
  { id := f.properties.bind Props.id,
    magnitude := f.properties.bind Props.mag,
    location := f.properties.bind Props.place,
    coordinates := featCoords f,
    depth := (featCoords f)[2]?,
    time := formatDate (f.properties.bind Props.time),
    timestamp := f.properties.bind Props.time,
    url := f.properties.bind Props.url }

/-- The cluster branch (part_000 lines 105-125): fetch up to 10 leaves, build
the sample list, and emit the aggregate with
`avgMagnitude: cluster.properties.mag || points.reduce(..) / points.length`
(JS `||`, so a zero running average also falls back to the sample mean), and
likewise for `avgDepth` from the reduced `depth` property. -/
def clusterMarker (coords : List ℚ) (members : List Feature) : Marker :=
  let points := (getLeaves members 10).map leafToPoint
  let acc := clusterAcc (members.map mapProps)
  .cluster coords members.length
    (jsOrQ acc.mag ((points.map fun p => p.magnitude.getD 0).sum / points.length))
    (jsOrQ acc.depth ((points.map fun p => p.depth.getD 0).sum / points.length))
    points

/-- Dispatch a query node to its descriptor (the body of the `clusters.map`
callback, part_000 lines 84-125). -/
def nodeToMarker : Node → Marker
  | .leaf f => singleMarker f
  | .cluster cs ms => clusterMarker cs ms

/-- The body of the `try` block of `createClusterMarkers` (part_000 lines
35-126): validate, short-circuit when nothing valid remains, read the bounding
box off the bounds object (a `null`/`undefined` bounds throws there, the only
failure source the typed embedding retains), query the index and map nodes to
descriptors. The trailing `.filter(Boolean)` is the identity since the mapped
descriptors are never `null`. -/
def createClusterMarkersTry (earthquakes : List (Option Feature))
    (bounds : Option Bounds) (zoom : ℚ) : Except String (List Marker) :=
  let validFeatures := (earthquakes.filter isValidFeature).filterMap id
  if validFeatures.length = 0 then Except.ok []
  else
    match bounds with
    | none => Except.error "TypeError: bounds.getWest is not a function"
    | some b => Except.ok ((getClusters validFeatures b ⌊zoom⌋).map nodeToMarker)

/-- `createClusterMarkers` (part_000 lines 30-131): guard against a missing or
empty input list, then run the fallible pipeline under a catch-all that
converts every error to the empty list. -/
def createClusterMarkers (earthquakes : Option (List (Option Feature)))
    (bounds : Option Bounds) (zoom : ℚ) : List Marker :=
  match earthquakes with
  | none => []
  | some l =>
    if l.length = 0 then []
    else
      match createClusterMarkersTry l bounds zoom with
      | Except.ok ms => ms
      | Except.error _ => []

/-- The size input of `createMarkerElement` (part_000 lines 134-165): the
caller passes `marker.earthquake` for a single and the cluster descriptor
itself for a cluster. -/
inductive MarkerData where
  | single (magnitude : ℚ)
  | cluster (count : ℕ) (avgMagnitude : ℚ)
deriving DecidableEq

/-- The size computation of `createMarkerElement` (part_000 lines 139 and 149):
`Math.max(20, data.magnitude * 5)` for a single and
`Math.min(Math.max(30, data.count), 60)` for a cluster. -/
def markerSize : MarkerData → ℚ
  | .single m => max 20 (m * 5)
  | .cluster c _ => min (max 30 (c : ℚ)) 60

/-- Sample points of a marker (empty for a single). -/
def markerPoints : Marker → List Earthquake
  | .single _ _ _ _ => []
  | .cluster _ _ _ _ pts => pts

/-- Member count of a marker (zero for a single). -/
def markerCount : Marker → ℕ
  | .single _ _ _ _ => 0
  | .cluster _ cnt _ _ _ => cnt

/-- Coordinates of a marker. -/
def markerCoords : Marker → List ℚ
  | .single _ cs _ _ => cs
  | .cluster cs _ _ _ _ => cs

/-- Displayed average magnitude of a cluster marker (zero for a single). -/
def markerAvgMag : Marker → ℚ
  | .single _ _ _ _ => 0
  | .cluster _ _ am _ _ => am

/-- Displayed average depth of a cluster marker (zero for a single). -/
def markerAvgDepth : Marker → ℚ
  | .single _ _ _ _ => 0
  | .cluster _ _ _ ad _ => ad

/-- Earthquake record of a single marker (a default dummy for clusters). -/
def markerEarthquake : Marker → Earthquake
  | .single e _ _ _ => e
  | .cluster _ _ _ _ _ => ⟨none, none, none, [], none, "", none, none⟩

/-- Top-level magnitude of a single marker. -/
def markerMag : Marker → Option ℚ
  | .single _ _ mg _ => mg
  | .cluster _ _ _ _ _ => none

/-- Top-level depth of a single marker. -/
def markerDepthOpt : Marker → Option ℚ
  | .single _ _ _ dp => dp
  | .cluster _ _ _ _ _ => none

/-- A well-formed feature used as concrete witness input. -/
def exGood : Feature :=
  { type := some "Feature",
    geometry := some { type := some "Point", coordinates := some [1, 2, 10] },
    properties := some { mag := some 5, place := some "X", time := some 5,
                         depth := none, id := some "a", url := none },
    id := some "idA" }

/-- A feature that satisfies the spec's §3 validity wording (a two-element
coordinate pair, non-null magnitude, non-empty place, non-null time) but not
the code's filter, which demands exactly three coordinates. -/
def exTwoCoord : Feature :=
  { type := some "Feature",
    geometry := some { type := some "Point", coordinates := some [1, 2] },
    properties := some { mag := some 5, place := some "X", time := some 5,
                         depth := none, id := none, url := none },
    id := none }

/-- A viewport comfortably containing the witness features. -/
def exB : Bounds := ⟨-10, -10, 10, 10⟩

/-- A valid feature at a fixed location with a chosen magnitude. -/
def mkFeat (m : ℚ) : Feature :=
  { type := some "Feature",
    geometry := some { type := some "Point", coordinates := some [1, 2, 10] },
    properties := some { mag := some m, place := some "X", time := some 5,
                         depth := none, id := none, url := none },
    id := none }

/-- Two co-located features, which cluster at zoom 0. -/
def exPair : List Feature := [mkFeat 1, mkFeat 2]

/-- The cluster descriptor the pair produces. -/
def exPairMarker : Marker := clusterMarker (centroid exPair) exPair

/-- Eleven co-located features whose running average magnitude is exactly zero
(ten at magnitude 1 and one at magnitude -10) while the ten retained sample
points average to 1. -/
def ex11 : List Feature := List.replicate 10 (mkFeat 1) ++ [mkFeat (-10)]

/-- The cluster descriptor the eleven features produce. -/
def ex11Marker : Marker := clusterMarker (centroid ex11) ex11

/-- Mapped props with a chosen magnitude and depth, for exercising the merge
rule on concrete sequences. -/
def mkProps (m d : ℚ) : MappedProps := ⟨m, 0, "", d, none⟩

/-- C4: `getMagnitudeColor` is a total function on all rational magnitudes
implementing the banding table with inclusive lower bounds — 7.0, 6.0, 5.0 and
4.0 each select the higher band, everything below 4.0 is light green — and the
severity of the chosen band is monotone in the magnitude. -/
theorem getMagnitudeColor_banding_monotone :
    getMagnitudeColor 7 = "#d32f2f" ∧ getMagnitudeColor 6 = "#f57c00" ∧
    getMagnitudeColor 5 = "#ffa000" ∧ getMagnitudeColor 4 = "#fbc02d" ∧
    (∀ m : ℚ, m < 4 → getMagnitudeColor m = "#7cb342") ∧
    (∀ a b : ℚ, a ≤ b →
      colorLevel (getMagnitudeColor a) ≤ colorLevel (getMagnitudeColor b)) := by
  refine ⟨by norm_num [getMagnitudeColor], by norm_num [getMagnitudeColor],
    by norm_num [getMagnitudeColor], by norm_num [getMagnitudeColor], ?_, ?_⟩
  · intro m hm
    unfold getMagnitudeColor
    split_ifs <;> first | rfl | linarith
  · intro a b hab
    unfold getMagnitudeColor
    split_ifs <;> first | decide | linarith

/-- Witness for C4 at concrete magnitudes: 3 is light green, and the band
severity does not decrease from magnitude 2 to magnitude 8. -/
theorem getMagnitudeColor_banding_monotone_witness :
    getMagnitudeColor 3 = "#7cb342" ∧
    colorLevel (getMagnitudeColor 2) ≤ colorLevel (getMagnitudeColor 8) :=
  ⟨getMagnitudeColor_banding_monotone.2.2.2.2.1 3 (by norm_num),
   getMagnitudeColor_banding_monotone.2.2.2.2.2 2 8 (by norm_num)⟩

/-- C5: `createMarkerElement` sizes a single marker as `max(20, magnitude*5)`
and a cluster marker as the member count clamped to `[30, 60]`: counts of 60 or
more give 60, counts of 30 or fewer give 30, counts in between give the count
itself, and the size always lies in `[30, 60]`. -/
theorem markerSize_spec :
    (∀ m : ℚ, markerSize (MarkerData.single m) = max 20 (m * 5)) ∧
    (∀ (c : ℕ) (am : ℚ),
      markerSize (MarkerData.cluster c am) = min (max 30 (c : ℚ)) 60 ∧
      30 ≤ markerSize (MarkerData.cluster c am) ∧
      markerSize (MarkerData.cluster c am) ≤ 60 ∧
      (60 ≤ c → markerSize (MarkerData.cluster c am) = 60) ∧
      (c ≤ 30 → markerSize (MarkerData.cluster c am) = 30) ∧
      (30 ≤ c → c ≤ 60 → markerSize (MarkerData.cluster c am) = (c : ℚ))) := by
  refine ⟨fun m => rfl, fun c am => ?_⟩
  have hc : (0 : ℚ) ≤ (c : ℚ) := by positivity
  refine ⟨rfl, ?_, ?_, ?_, ?_, ?_⟩
  · simp only [markerSize]
    exact le_min (le_max_left _ _) (by norm_num)
  · simp only [markerSize]
    exact min_le_right _ _
  · intro h
    have h' : (60 : ℚ) ≤ (c : ℚ) := by exact_mod_cast h
    simp only [markerSize]
    rw [max_eq_right (by linarith), min_eq_right h']
  · intro h
    have h' : (c : ℚ) ≤ 30 := by exact_mod_cast h
    simp only [markerSize]
    rw [max_eq_left h', min_eq_left (by norm_num)]
  · intro h1 h2
    have h1' : (30 : ℚ) ≤ (c : ℚ) := by exact_mod_cast h1
    have h2' : (c : ℚ) ≤ 60 := by exact_mod_cast h2
    simp only [markerSize]
    rw [max_eq_right h1', min_eq_left h2']

/-- Witness for C5 at concrete descriptors: magnitude 9 gives `max(20, 45)`,
count 100 clamps to 60, count 10 clamps to 30. -/
theorem markerSize_spec_witness :
    markerSize (MarkerData.single 9) = max 20 (9 * 5) ∧
    markerSize (MarkerData.cluster 100 0) = 60 ∧
    markerSize (MarkerData.cluster 10 0) = 30 :=
  ⟨markerSize_spec.1 9,
   (markerSize_spec.2 100 0).2.2.2.1 (by norm_num),
   (markerSize_spec.2 10 0).2.2.2.2.1 (by norm_num)⟩

/-- C7: a missing or empty input list, and likewise an input whose features are
all filtered out by validation, each yield the empty marker list rather than an
error. -/
theorem createClusterMarkers_empty_inputs (b : Option Bounds) (z : ℚ) :
    createClusterMarkers none b z = [] ∧
    createClusterMarkers (some []) b z = [] ∧
    (∀ l, List.filter isValidFeature l = [] → createClusterMarkers (some l) b z = []) := by
  refine ⟨rfl, rfl, fun l h => ?_⟩
  by_cases hl : l.length = 0
  · simp [createClusterMarkers, hl]
  · simp [createClusterMarkers, createClusterMarkersTry, hl, h]

/-- Witness for C7: a list holding one `null` entry (filtered out by
validation) yields the empty list. -/
theorem createClusterMarkers_empty_inputs_witness :
    createClusterMarkers (some [none]) (some exB) 1 = [] :=
  (createClusterMarkers_empty_inputs (some exB) 1).2.2 [none] (by decide)

/-- C1: `createClusterMarkers` is total — its result is always a list, namely
the successful result of the fallible pipeline when that pipeline succeeds —
and every error raised inside the pipeline (validation, index construction or
query) is caught at the boundary and converted to the empty list. -/
theorem createClusterMarkers_never_raises (eq : Option (List (Option Feature)))
    (b : Option Bounds) (z : ℚ) :
    (createClusterMarkers eq b z = [] ∨
      ∃ l ms, eq = some l ∧ createClusterMarkersTry l b z = Except.ok ms ∧
        createClusterMarkers eq b z = ms) ∧
    (∀ l e, eq = some l → createClusterMarkersTry l b z = Except.error e →
      createClusterMarkers eq b z = []) := by
  obtain _ | l := eq
  · exact ⟨Or.inl rfl, fun l e h => by cases h⟩
  by_cases hl : l.length = 0
  · refine ⟨Or.inl (by simp [createClusterMarkers, hl]), ?_⟩
    intro l' e hl' he
    simp [createClusterMarkers, hl]
  · match hTry : createClusterMarkersTry l b z with
    | Except.ok ms =>
      refine ⟨Or.inr ⟨l, ms, rfl, hTry, by simp [createClusterMarkers, hl, hTry]⟩, ?_⟩
      intro l' e hl' he
      cases hl'
      rw [he] at hTry
      cases hTry
    | Except.error err =>
      refine ⟨Or.inl (by simp [createClusterMarkers, hl, hTry]), ?_⟩
      intro l' e hl' he
      cases hl'
      simp [createClusterMarkers, hl, hTry]

/-- Witness for C1: calling with a valid feature but a malformed (`null`)
bounds object makes the pipeline raise, and the call returns the empty list. -/
theorem createClusterMarkers_never_raises_witness :
    createClusterMarkers (some [some exGood]) none 0 = [] :=
  (createClusterMarkers_never_raises (some [some exGood]) none 0).2
    [some exGood] "TypeError: bounds.getWest is not a function" rfl rfl

/-- Folding the `reduce` rule from an aggregate holding the running means of a
sum `s` of magnitudes and `d` of depths over `c` points extends those means by
the folded points' contributions. -/
theorem foldl_reduceAcc (ps : List MappedProps) (s d : ℚ) (c : ℕ)
    (hs : c = 0 → s = 0) (hd : c = 0 → d = 0) :
    ps.foldl reduceAcc ⟨s / c, d / c, c⟩ =
      ⟨(s + (ps.map MappedProps.mag).sum) / (c + ps.length),
       (d + (ps.map MappedProps.depth).sum) / (c + ps.length), c + ps.length⟩ := by
  induction ps generalizing s d c with
  | nil => simp
  | cons p ps ih =>
    have hstep : reduceAcc ⟨s / c, d / c, c⟩ p =
        ⟨(s + p.mag) / ((c : ℚ) + 1), (d + p.depth) / ((c : ℚ) + 1), c + 1⟩ := by
      unfold reduceAcc
      rcases Nat.eq_zero_or_pos c with h0 | h0
      · subst h0
        simp [hs rfl, hd rfl]
      · have hc : (c : ℚ) ≠ 0 := by positivity
        rw [div_mul_cancel₀ s hc, div_mul_cancel₀ d hc]
    rw [List.foldl_cons, hstep]
    have hcast : ((c : ℚ) + 1) = ((c + 1 : ℕ) : ℚ) := by push_cast; ring
    rw [hcast]
    rw [ih (s + p.mag) (d + p.depth) (c + 1) (by omega) (by omega)]
    simp only [List.map_cons, List.sum_cons, List.length_cons]
    congr 1
    · push_cast; ring
    · push_cast; ring
    · omega

/-- C3: merging any finite sequence of points one at a time into a cluster
aggregate by the reduction rule yields, in exact rational arithmetic, the
arithmetic mean of their magnitudes (and of their depths) — independently of
the merge order — together with the correct count. -/
theorem clusterAcc_mean_perm_invariant (ps qs : List MappedProps) (h : ps.Perm qs) :
    (clusterAcc qs).mag = ((ps.map MappedProps.mag).sum : ℚ) / ps.length ∧
    (clusterAcc qs).depth = ((ps.map MappedProps.depth).sum : ℚ) / ps.length ∧
    (clusterAcc qs).count = ps.length := by
  have hq : clusterAcc qs =
      ⟨((qs.map MappedProps.mag).sum : ℚ) / qs.length,
       ((qs.map MappedProps.depth).sum : ℚ) / qs.length, qs.length⟩ := by
    have h0 : (⟨0, 0, 0⟩ : AggAcc) = ⟨(0 : ℚ) / (0 : ℕ), (0 : ℚ) / (0 : ℕ), 0⟩ := by
      simp
    rw [clusterAcc, h0, foldl_reduceAcc qs 0 0 0 (fun _ => rfl) (fun _ => rfl)]
    simp
  rw [hq]
  have hmag : (qs.map MappedProps.mag).sum = (ps.map MappedProps.mag).sum :=
    ((h.map MappedProps.mag).symm).sum_eq
  have hdep : (qs.map MappedProps.depth).sum = (ps.map MappedProps.depth).sum :=
    ((h.map MappedProps.depth).symm).sum_eq
  have hlen : qs.length = ps.length := h.length_eq.symm
  rw [hmag, hdep, hlen]
  exact ⟨rfl, rfl, rfl⟩

/-- Witness for C3: merging magnitudes/depths (4,1), (9,2), (2,3) in a
non-trivial permuted order (2,3), (4,1), (9,2) still yields the arithmetic
means of the original sequence. -/
theorem clusterAcc_mean_perm_invariant_witness :
    (clusterAcc [mkProps 2 3, mkProps 4 1, mkProps 9 2]).mag =
      (([mkProps 4 1, mkProps 9 2, mkProps 2 3].map MappedProps.mag).sum : ℚ) /
        ([mkProps 4 1, mkProps 9 2, mkProps 2 3] : List MappedProps).length ∧
    (clusterAcc [mkProps 2 3, mkProps 4 1, mkProps 9 2]).depth =
      (([mkProps 4 1, mkProps 9 2, mkProps 2 3].map MappedProps.depth).sum : ℚ) /
        ([mkProps 4 1, mkProps 9 2, mkProps 2 3] : List MappedProps).length ∧
    (clusterAcc [mkProps 2 3, mkProps 4 1, mkProps 9 2]).count =
      ([mkProps 4 1, mkProps 9 2, mkProps 2 3] : List MappedProps).length :=
  clusterAcc_mean_perm_invariant [mkProps 4 1, mkProps 9 2, mkProps 2 3]
    [mkProps 2 3, mkProps 4 1, mkProps 9 2] (by decide)

/-- Counterexample to C2 as stated: this feature satisfies the spec's §3
validity invariant — a two-element coordinate pair, non-null magnitude,
non-empty place, non-null time — yet the validation step of
`createClusterMarkers` drops it (the code demands exactly three coordinates),
so a feature satisfying the claimed invariant IS dropped. -/
theorem validation_drops_spec_valid_feature :
    specValidFeature (some exTwoCoord) = true ∧
    List.filter isValidFeature [some exTwoCoord] = [] := by
  constructor
  · decide
  · decide

/-- C2 as amended: the validation step keeps a feature if and only if it is a
GeoJSON `Feature` with `Point` geometry whose coordinate array has exactly
three elements, a non-null magnitude, a truthy (non-empty) place string, and a
truthy (non-null and non-zero) time. -/
theorem isValidFeature_iff_code_invariant (of : Option Feature) :
    isValidFeature of = true ↔ CodeValidFeature of := by
  constructor
  · intro h
    obtain _ | f := of
    · exact absurd h (by decide)
    obtain ⟨t, g, p, i⟩ := f
    obtain _ | g := g
    · exact absurd h (by simp [isValidFeature])
    obtain ⟨gt, gc⟩ := g
    obtain _ | cs := gc
    · exact absurd h (by simp [isValidFeature])
    obtain _ | p := p
    · exact absurd h (by simp [isValidFeature])
    obtain ⟨m, pl, tm, dp, pid, purl⟩ := p
    obtain _ | m := m
    · exact absurd h (by simp [isValidFeature])
    obtain _ | pl := pl
    · exact absurd h (by simp [isValidFeature])
    obtain _ | tm := tm
    · exact absurd h (by simp [isValidFeature])
    refine ⟨_, _, cs, _, m, pl, tm, rfl, ?_, rfl, ?_, rfl, ?_, rfl, rfl, rfl,
      ?_, rfl, ?_⟩ <;> simp_all [isValidFeature]
  · rintro ⟨f, g, cs, p, m, pl, tm, rfl, ht, hg, hgt, hgc, hlen, hp, hm, hpl,
      hplne, htm, htmne⟩
    simp [isValidFeature, ht, hg, hgt, hgc, hlen, hp, hm, hpl, hplne, htm, htmne]

/-- Witness for C2's amended theorem: the concrete well-formed feature is kept
by the filter and satisfies the spelled-out code invariant. -/
theorem isValidFeature_iff_code_invariant_witness :
    CodeValidFeature (some exGood) :=
  (isValidFeature_iff_code_invariant (some exGood)).mp (by decide)

/-- Unfolding of the fallible pipeline into its decision structure. -/
theorem createClusterMarkersTry_eq (l : List (Option Feature)) (b : Option Bounds)
    (z : ℚ) :
    createClusterMarkersTry l b z =
      if ((l.filter isValidFeature).filterMap id).length = 0 then Except.ok []
      else
        match b with
        | none => Except.error "TypeError: bounds.getWest is not a function"
        | some b' =>
          Except.ok
            ((getClusters ((l.filter isValidFeature).filterMap id) b' ⌊z⌋).map
              nodeToMarker) := rfl

/-- Every returned marker is the image of a node of the index query over the
validated features of a present, non-empty input under a present bounds. -/
theorem marker_origin (eq : Option (List (Option Feature))) (b : Option Bounds)
    (z : ℚ) (m : Marker) (hm : m ∈ createClusterMarkers eq b z) :
    ∃ l b' n, eq = some l ∧ b = some b' ∧
      n ∈ getClusters ((l.filter isValidFeature).filterMap id) b' ⌊z⌋ ∧
      m = nodeToMarker n := by
  obtain _ | l := eq
  · simp [createClusterMarkers] at hm
  · by_cases hl : l.length = 0
    · simp [createClusterMarkers, hl] at hm
    · simp only [createClusterMarkers, if_neg hl] at hm
      rw [createClusterMarkersTry_eq] at hm
      by_cases hv : ((l.filter isValidFeature).filterMap id).length = 0
      · rw [if_pos hv] at hm
        simp at hm
      · rw [if_neg hv] at hm
        obtain _ | b' := b
        · simp at hm
        · simp only [List.mem_map] at hm
          obtain ⟨n, hn, rfl⟩ := hm
          exact ⟨l, b', n, rfl, rfl, hn, rfl⟩

/-- Every member of every group produced by `insertByKey` is the inserted
feature or a member of a group of the accumulator. -/
theorem mem_insertByKey (k : ℤ × ℤ) (f : Feature)
    (acc : List ((ℤ × ℤ) × List Feature)) :
    ∀ kv ∈ insertByKey k f acc, ∀ y ∈ kv.2, y = f ∨ ∃ kv' ∈ acc, y ∈ kv'.2 := by
  induction acc with
  | nil =>
    intro kv hkv y hy
    simp only [insertByKey, List.mem_singleton] at hkv
    subst hkv
    simp only [List.mem_singleton] at hy
    exact Or.inl hy
  | cons a rest ih =>
    intro kv hkv y hy
    obtain ⟨k', fs⟩ := a
    simp only [insertByKey] at hkv
    by_cases hk : k = k'
    · rw [if_pos hk] at hkv
      rcases List.mem_cons.mp hkv with rfl | hkv'
      · rcases List.mem_append.mp hy with h | h
        · exact Or.inr ⟨(k', fs), List.mem_cons_self _ _, h⟩
        · simp only [List.mem_singleton] at h
          exact Or.inl h
      · exact Or.inr ⟨kv, List.mem_cons_of_mem _ hkv', hy⟩
    · rw [if_neg hk] at hkv
      rcases List.mem_cons.mp hkv with rfl | hkv'
      · exact Or.inr ⟨(k', fs), List.mem_cons_self _ _, hy⟩
      · rcases ih kv hkv' y hy with h | ⟨kv'', hkv'', hy''⟩
        · exact Or.inl h
        · exact Or.inr ⟨kv'', List.mem_cons_of_mem _ hkv'', hy''⟩

/-- Every member of every group of `groupFeatures` is one of the grouped
features. -/
theorem mem_groupFeatures (z : ℕ) (fs : List Feature) :
    ∀ kv ∈ groupFeatures z fs, ∀ y ∈ kv.2, y ∈ fs := by
  suffices h : ∀ (gs : List Feature) (acc : List ((ℤ × ℤ) × List Feature)),
      ∀ kv ∈ gs.foldl (fun acc f => insertByKey (cellKey z f) f acc) acc,
        ∀ y ∈ kv.2, (∃ kv' ∈ acc, y ∈ kv'.2) ∨ y ∈ gs by
    intro kv hkv y hy
    rcases h fs [] kv hkv y hy with ⟨kv', hkv', -⟩ | h'
    · simp at hkv'
    · exact h'
  intro gs
  induction gs with
  | nil =>
    intro acc kv hkv y hy
    exact Or.inl ⟨kv, hkv, hy⟩
  | cons g rest ih =>
    intro acc kv hkv y hy
    rw [List.foldl_cons] at hkv
    rcases ih (insertByKey (cellKey z g) g acc) kv hkv y hy with ⟨kv', hkv', hy'⟩ | h
    · rcases mem_insertByKey _ _ _ kv' hkv' y hy' with rfl | ⟨kv'', hkv'', hy''⟩
      · exact Or.inr (List.mem_cons_self _ _)
      · exact Or.inl ⟨kv'', hkv'', hy''⟩
    · exact Or.inr (List.mem_cons_of_mem _ h)

/-- A group turns into a leaf node exactly for a singleton group and into a
cluster node with at least two members otherwise. -/
theorem groupToNode_eq (gs : List Feature) (n : Node) (h : groupToNode gs = some n) :
    (∃ f, gs = [f] ∧ n = Node.leaf f) ∨
    (2 ≤ gs.length ∧ n = Node.cluster (centroid gs) gs) := by
  match gs with
  | [] => simp [groupToNode] at h
  | [f] =>
    left
    refine ⟨f, rfl, ?_⟩
    simp only [groupToNode, Option.some.injEq] at h
    exact h.symm
  | f :: g :: rest =>
    right
    refine ⟨by simp, ?_⟩
    simp only [groupToNode, Option.some.injEq] at h
    exact h.symm

/-- Every node of the query is either a leaf holding one of the loaded
features or a cluster whose at-least-two members are all loaded features. -/
theorem getClusters_node_origin (fs : List Feature) (b : Bounds) (z : ℤ) (n : Node)
    (hn : n ∈ getClusters fs b z) :
    (∃ f ∈ fs, n = Node.leaf f) ∨
    (∃ ms, 2 ≤ ms.length ∧ (∀ y ∈ ms, y ∈ fs) ∧
      n = Node.cluster (centroid ms) ms) := by
  simp only [getClusters] at hn
  rw [List.mem_filter] at hn
  obtain ⟨hn, -⟩ := hn
  by_cases hz : z > 16
  · rw [if_pos hz] at hn
    obtain ⟨f, hf, rfl⟩ := List.mem_map.mp hn
    exact Or.inl ⟨f, hf, rfl⟩
  · rw [if_neg hz] at hn
    obtain ⟨g, hg, hgn⟩ := List.mem_filterMap.mp hn
    rcases groupToNode_eq g.2 n hgn with ⟨f, hgf, rfl⟩ | ⟨h2, rfl⟩
    · refine Or.inl ⟨f, ?_, rfl⟩
      exact mem_groupFeatures _ fs g hg f (by simp [hgf])
    · exact Or.inr ⟨g.2, h2, fun y hy => mem_groupFeatures _ fs g hg y hy, rfl⟩

/-- A feature surviving validation is an element of the input list and passes
the filter. -/
theorem mem_validFeatures (l : List (Option Feature)) (f : Feature)
    (hf : f ∈ (l.filter isValidFeature).filterMap id) :
    some f ∈ l ∧ isValidFeature (some f) = true := by
  rw [List.mem_filterMap] at hf
  obtain ⟨a, ha, hao⟩ := hf
  obtain rfl : a = some f := hao
  rw [List.mem_filter] at ha
  exact ⟨ha.1, ha.2⟩

/-- C6: every cluster descriptor returned by `createClusterMarkers` retains at
most 10 sample points, and never more than the cluster's full member count. -/
theorem cluster_count_ge_points_le_ten (eq : Option (List (Option Feature)))
    (b : Option Bounds) (z : ℚ) (m : Marker) (hm : m ∈ createClusterMarkers eq b z)
    (cs : List ℚ) (cnt : ℕ) (am ad : ℚ) (pts : List Earthquake)
    (he : m = Marker.cluster cs cnt am ad pts) :
    pts.length ≤ 10 ∧ pts.length ≤ cnt := by
  obtain ⟨l, b', n, rfl, rfl, hn, rfl⟩ := marker_origin _ _ _ m hm
  match n with
  | Node.leaf f => simp [nodeToMarker, singleMarker] at he
  | Node.cluster cs' ms =>
    simp only [nodeToMarker, clusterMarker, Marker.cluster.injEq] at he
    obtain ⟨-, hcnt, -, -, hpts⟩ := he
    subst hcnt
    subst hpts
    refine ⟨?_, ?_⟩ <;>
      · rw [List.length_map, getLeaves, List.length_take]
        omega

/-- Witness for C6: the concrete two-feature cluster keeps 2 sample points,
within the cap of 10 and within its member count. -/
theorem cluster_count_ge_points_le_ten_witness :
    (markerPoints exPairMarker).length ≤ 10 ∧
    (markerPoints exPairMarker).length ≤ markerCount exPairMarker :=
  cluster_count_ge_points_le_ten (some (exPair.map some)) (some exB) 0 exPairMarker
    (by with_unfolding_all decide)
    (markerCoords exPairMarker) (markerCount exPairMarker) (markerAvgMag exPairMarker)
    (markerAvgDepth exPairMarker) (markerPoints exPairMarker) rfl

/-- C10: every cluster descriptor's retained sample list is non-empty — a
cluster node always holds at least two members and the leaf cap is 10 — so the
fallback mean over the samples never divides by zero. -/
theorem cluster_points_nonempty (eq : Option (List (Option Feature)))
    (b : Option Bounds) (z : ℚ) (m : Marker) (hm : m ∈ createClusterMarkers eq b z)
    (cs : List ℚ) (cnt : ℕ) (am ad : ℚ) (pts : List Earthquake)
    (he : m = Marker.cluster cs cnt am ad pts) :
    pts ≠ [] := by
  obtain ⟨l, b', n, rfl, rfl, hn, rfl⟩ := marker_origin _ _ _ m hm
  rcases getClusters_node_origin _ _ _ n hn with ⟨f, -, rfl⟩ | ⟨ms, h2, -, rfl⟩
  · simp [nodeToMarker, singleMarker] at he
  · simp only [nodeToMarker, clusterMarker, Marker.cluster.injEq] at he
    obtain ⟨-, -, -, -, hpts⟩ := he
    subst hpts
    have hlen : ((getLeaves ms 10).map leafToPoint).length ≠ 0 := by
      rw [List.length_map, getLeaves, List.length_take]
      omega
    intro hnil
    exact hlen (by rw [hnil]; rfl)

/-- Witness for C10: the concrete eleven-feature cluster has a non-empty sample
list. -/
theorem cluster_points_nonempty_witness : markerPoints ex11Marker ≠ [] :=
  cluster_points_nonempty (some (ex11.map some)) (some exB) 0 ex11Marker
    (by with_unfolding_all decide)
    (markerCoords ex11Marker) (markerCount ex11Marker) (markerAvgMag ex11Marker)
    (markerAvgDepth ex11Marker) (markerPoints ex11Marker) rfl

/-- C9: every single descriptor wraps a validated input feature with its
attributes unmodified — id, magnitude, place, coordinates, depth, timestamp and
url all drawn from the feature, time being the date-formatting helper applied
to its timestamp — and the redundant top-level coordinates, magnitude and depth
equal the nested earthquake's values. -/
theorem single_descriptor_unmodified (eq : Option (List (Option Feature)))
    (b : Option Bounds) (z : ℚ) (m : Marker) (hm : m ∈ createClusterMarkers eq b z)
    (e : Earthquake) (cs : List ℚ) (mg dp : Option ℚ)
    (he : m = Marker.single e cs mg dp) :
    ∃ l f, eq = some l ∧ some f ∈ l ∧ isValidFeature (some f) = true ∧
      e.id = jsOrOptStr (f.properties.bind Props.id) f.id ∧
      e.magnitude = f.properties.bind Props.mag ∧
      e.location = f.properties.bind Props.place ∧
      e.coordinates = featCoords f ∧
      e.depth = (featCoords f)[2]? ∧
      e.time = formatDate (f.properties.bind Props.time) ∧
      e.timestamp = f.properties.bind Props.time ∧
      e.url = f.properties.bind Props.url ∧
      cs = featCoords f ∧ mg = e.magnitude ∧ dp = e.depth := by
  obtain ⟨l, b', n, rfl, rfl, hn, rfl⟩ := marker_origin _ _ _ m hm
  rcases getClusters_node_origin _ _ _ n hn with ⟨f, hf, rfl⟩ | ⟨ms, -, -, rfl⟩
  · obtain ⟨hmem, hvalid⟩ := mem_validFeatures l f hf
    simp only [nodeToMarker, singleMarker, Marker.single.injEq] at he
    obtain ⟨hE, hcs, hmg, hdp⟩ := he
    subst hE
    subst hcs
    subst hmg
    subst hdp
    exact ⟨l, f, rfl, hmem, hvalid, rfl, rfl, rfl, rfl, rfl, rfl, rfl, rfl, rfl,
      rfl, rfl⟩
  · simp [nodeToMarker, clusterMarker] at he

/-- Witness for C9: the single descriptor produced for the concrete
well-formed feature carries exactly that feature's attributes. -/
theorem single_descriptor_unmodified_witness :
    ∃ l f, (some [some exGood] : Option (List (Option Feature))) = some l ∧
      some f ∈ l ∧ isValidFeature (some f) = true ∧
      (markerEarthquake (singleMarker exGood)).id =
        jsOrOptStr (f.properties.bind Props.id) f.id ∧
      (markerEarthquake (singleMarker exGood)).magnitude =
        f.properties.bind Props.mag ∧
      (markerEarthquake (singleMarker exGood)).location =
        f.properties.bind Props.place ∧
      (markerEarthquake (singleMarker exGood)).coordinates = featCoords f ∧
      (markerEarthquake (singleMarker exGood)).depth = (featCoords f)[2]? ∧
      (markerEarthquake (singleMarker exGood)).time =
        formatDate (f.properties.bind Props.time) ∧
      (markerEarthquake (singleMarker exGood)).timestamp =
        f.properties.bind Props.time ∧
      (markerEarthquake (singleMarker exGood)).url =
        f.properties.bind Props.url ∧
      markerCoords (singleMarker exGood) = featCoords f ∧
      markerMag (singleMarker exGood) = (markerEarthquake (singleMarker exGood)).magnitude ∧
      markerDepthOpt (singleMarker exGood) = (markerEarthquake (singleMarker exGood)).depth :=
  single_descriptor_unmodified (some [some exGood]) (some exB) 0 (singleMarker exGood)
    (by with_unfolding_all decide) (markerEarthquake (singleMarker exGood))
    (markerCoords (singleMarker exGood)) (markerMag (singleMarker exGood))
    (markerDepthOpt (singleMarker exGood)) rfl

/-- Counterexample to C8 as stated: for the concrete eleven-member cluster the
index-maintained running average magnitude is 0 — available, and exactly the
arithmetic mean of all eleven members — yet the displayed `avgMagnitude` is 1,
the mean over the ten retained sample points, because the code's JS `||`
treats the zero average as falsy. -/
theorem cluster_avg_zero_falls_back :
    createClusterMarkers (some (ex11.map some)) (some exB) 0 = [ex11Marker] ∧
    (clusterAcc (ex11.map mapProps)).mag = 0 ∧
    markerAvgMag ex11Marker = 1 := by
  refine ⟨?_, ?_, ?_⟩
  · with_unfolding_all decide
  · with_unfolding_all decide
  · with_unfolding_all decide

/-- C8 as amended: a cluster descriptor's displayed `avgMagnitude` equals the
index-maintained running average when that average is truthy (non-zero); when
it is zero — JS falsy — or unavailable, it equals the simple arithmetic mean
over only the retained sample points; likewise for `avgDepth`. -/
theorem cluster_avg_truthy_or_sample_mean (eq : Option (List (Option Feature)))
    (b : Option Bounds) (z : ℚ) (m : Marker) (hm : m ∈ createClusterMarkers eq b z)
    (cs : List ℚ) (cnt : ℕ) (am ad : ℚ) (pts : List Earthquake)
    (he : m = Marker.cluster cs cnt am ad pts) :
    ∃ ms, 2 ≤ ms.length ∧ cnt = ms.length ∧
      pts = (getLeaves ms 10).map leafToPoint ∧
      am = (if (clusterAcc (ms.map mapProps)).mag = 0
            then ((pts.map fun p => p.magnitude.getD 0).sum : ℚ) / pts.length
            else (clusterAcc (ms.map mapProps)).mag) ∧
      ad = (if (clusterAcc (ms.map mapProps)).depth = 0
            then ((pts.map fun p => p.depth.getD 0).sum : ℚ) / pts.length
            else (clusterAcc (ms.map mapProps)).depth) := by
  obtain ⟨l, b', n, rfl, rfl, hn, rfl⟩ := marker_origin _ _ _ m hm
  rcases getClusters_node_origin _ _ _ n hn with ⟨f, -, rfl⟩ | ⟨ms, h2, -, rfl⟩
  · simp [nodeToMarker, singleMarker] at he
  · simp only [nodeToMarker, clusterMarker, Marker.cluster.injEq] at he
    obtain ⟨-, hcnt, ham, had, hpts⟩ := he
    subst hcnt
    subst hpts
    refine ⟨ms, h2, rfl, rfl, ?_, ?_⟩
    · rw [← ham]; rfl
    · rw [← had]; rfl

/-- Witness for C8's amended theorem at the concrete eleven-member cluster. -/
theorem cluster_avg_truthy_or_sample_mean_witness :
    ∃ ms, 2 ≤ ms.length ∧ markerCount ex11Marker = ms.length ∧
      markerPoints ex11Marker = (getLeaves ms 10).map leafToPoint ∧
      markerAvgMag ex11Marker =
        (if (clusterAcc (ms.map mapProps)).mag = 0
         then (((markerPoints ex11Marker).map fun p => p.magnitude.getD 0).sum : ℚ) /
           (markerPoints ex11Marker).length
         else (clusterAcc (ms.map mapProps)).mag) ∧
      markerAvgDepth ex11Marker =
        (if (clusterAcc (ms.map mapProps)).depth = 0
         then (((markerPoints ex11Marker).map fun p => p.depth.getD 0).sum : ℚ) /
           (markerPoints ex11Marker).length
         else (clusterAcc (ms.map mapProps)).depth) :=
  cluster_avg_truthy_or_sample_mean (some (ex11.map some)) (some exB) 0 ex11Marker
    (by with_unfolding_all decide)
    (markerCoords ex11Marker) (markerCount ex11Marker) (markerAvgMag ex11Marker)
    (markerAvgDepth ex11Marker) (markerPoints ex11Marker) rfl
